import Mathlib

/-!
Verification development for the CARMINE-T2.4 climate-indicator repository.

The development shallowly embeds the three Python source files:

* `Birmingham/indicator_Birmingham_MO.py` — indicator functions over daily
  climate series (growing degree days after Baker et al., tropical nights,
  hot-spell frequency, SPI with its FitError fallback);
* `notebooks/_lib/paths.py` — the INDICATORS-directory discovery and
  basename-resolution helpers over an abstract file-system model;
* `plot-map_2D.py` — the map-plotting script, modelled as the list of
  file-system and plotting effects it performs.

Numeric values are rationals; time stamps are explicit (year, day-of-year,
sub-daily tick) triples, so that the xarray resampling steps of the source
become explicit grouping operations.  Third-party library calls (xclim
indicators, xarray resampling/alignment, pathlib globbing) are modelled from
their documented semantics at the call sites used by the repository: grouping
is modelled for the annual frequency actually exercised by the claims, glob
patterns support the literal, `*` and `?` forms that appear in the sources,
and Python exception messages are abstracted to their payloads.
-/

/-- Time stamp of one reading: calendar year, day-of-year index, and a
sub-daily tick distinguishing several readings of the same day. -/
structure Stamp where
  year : Int
  day : Nat
  tick : Nat
deriving DecidableEq

/-- Key of a daily group: calendar year and day-of-year. -/
abbrev DayKey := Int × Nat

/-- Day key of a stamp. -/
def dayOf (s : Stamp) : DayKey := (s.year, s.day)

/-- A (possibly sub-daily) time series of rational values. -/
abbrev Series := List (Stamp × ℚ)

/-- A daily time series, indexed by day keys. -/
abbrev DailySeries := List (DayKey × ℚ)

/-- Binary maximum on rationals, the aggregation of a `.max()` resample. -/
def maxQ (a b : ℚ) : ℚ := max a b

/-- Binary minimum on rationals, the aggregation of a `.min()` resample. -/
def minQ (a b : ℚ) : ℚ := min a b

/-- Values of a series falling on a given day. -/
def valuesAt (k : DayKey) (s : Series) : List ℚ :=
  (s.filter (fun e => dayOf e.1 == k)).map (fun e => e.2)

/-- Fold of a binary aggregation over a nonempty value list; `none` on an
empty group (which never arises: groups come from present keys). -/
def foldAgg (agg : ℚ → ℚ → ℚ) : List ℚ → Option ℚ
  | [] => none
  | v :: vs => some (vs.foldl agg v)

/-- Model of `x.resample(time="D").agg(keep_attrs=True)`: group the series by
day key (in order of first appearance) and aggregate each group. -/
def resampleDaily (agg : ℚ → ℚ → ℚ) (s : Series) : DailySeries :=
  ((s.map (fun e => dayOf e.1)).dedup).filterMap
    (fun k => (foldAgg agg (valuesAt k s)).map (fun v => (k, v)))

/-- Years present in a daily series, in order of first appearance. -/
def yearsOf (s : DailySeries) : List Int :=
  (s.map (fun e => e.1.1)).dedup

/-- Model of `x.resample(time="YS").sum(keep_attrs=True)`: per-year sums. -/
def resampleYearlySum (s : DailySeries) : List (Int × ℚ) :=
  (yearsOf s).map
    (fun y => (y, ((s.filter (fun e => e.1.1 == y)).map (fun e => e.2)).sum))

/-- Model of Python exceptions raised by the repository's own code. -/
inductive PyError
  | keyError (key : String)
  | fileNotFoundError (basename : String)
  | fileExistsError (basename : String)
  | valueError (dataset : String)
deriving DecidableEq

/-! ## indicator_Birmingham_MO.py — gdd_baker -/

/-- Daily degree-day value of `gdd_baker` (lines 364–376 of
`indicator_Birmingham_MO.py`): the nested `xr.where` conditions applied to one
daily maximum/minimum temperature pair, in degrees Celsius. -/
def bakerD (tbase tmax tmin : ℚ) : ℚ :=
  if tmax ≤ tbase then 0
  else if tbase ≤ tmin then 0.5 * (tmax + tmin) - tbase
  else if tbase < (tmax + tmin) / 2 then (tmax - tbase) / 2 + (tbase - tmin) / 4
  else (tmax - tbase) / 4

/-- First value of a daily series at a given day key. -/
def findVal (k : DayKey) : DailySeries → Option ℚ
  | [] => none
  | e :: rest => if e.1 == k then some e.2 else findVal k rest

/-- Model of xarray's automatic inner-join alignment of two daily arrays in a
binary operation: days of the first series that also occur in the second,
paired with both values. -/
def alignDays (a b : DailySeries) : List (DayKey × ℚ × ℚ) :=
  a.filterMap (fun e => (findVal e.1 b).map (fun v => (e.1, e.2, v)))

/-- Embedding of `gdd_baker` (lines 334–388): resample tasmax with the daily
maximum and tasmin with the daily minimum, apply the nested conditions
pointwise, and sum per year with a hard-coded annual resample.  The `freq`
argument is accepted but never used, exactly as in the source.  The
`convert_units_to(…, "degC")` steps are identities here because values are
already Celsius numbers. -/
def gdd_baker (tasmax tasmin : Series) (tbase : ℚ) (freq : String) : List (Int × ℚ) :=
  let tasmax_daily := resampleDaily maxQ tasmax
  let tasmin_daily := resampleDaily minQ tasmin
  let D : DailySeries :=
    (alignDays tasmax_daily tasmin_daily).map (fun e => (e.1, bakerD tbase e.2.1 e.2.2))
  resampleYearlySum D

/-! ## indicator_Birmingham_MO.py — tropical_nights -/

/-- Model of `xc.atmos.tropical_nights(tasmin_daily, freq=freq)` from the
xclim documentation: per period, the count of days whose daily value is
strictly above the threshold (default 20 degC).  Grouping is modelled for the
annual frequency exercised here; the freq string is carried unchanged. -/
def xcTropicalNights (daily : DailySeries) (thresh : ℚ) (freq : String) : List (Int × ℚ) :=
  (yearsOf daily).map
    (fun y => (y, (((daily.filter (fun e => e.1.1 == y)).filter
        (fun e => thresh < e.2)).length : ℚ)))

/-- Embedding of `tropical_nights` (lines 280–302): the source resamples the
supplied tasmin series to daily resolution with `.max()` (line 298), then
counts nights above the default 20 degC threshold. -/
def tropical_nights (tasmin : Series) (freq : String) : List (Int × ℚ) :=
  let tasmin_daily := resampleDaily maxQ tasmin
  xcTropicalNights tasmin_daily 20 freq

/-- Variant of `tropical_nights` that resamples tasmin with the daily minimum
instead; stated from the contrast drawn in the claim, for comparison with the
source's `.max()` resample. -/
def tropical_nights_min_resample (tasmin : Series) (freq : String) : List (Int × ℚ) :=
  let tasmin_daily := resampleDaily minQ tasmin
  xcTropicalNights tasmin_daily 20 freq

/-! ## indicator_Birmingham_MO.py — hot_spell_frequency -/

/-- Parameters of one hot-spell classification from the dictionary at lines
246–262 of the source. -/
structure HotSpellParams where
  name : String
  thresh : ℚ
  window : Nat
deriving DecidableEq

/-- The `hot_spell` dictionary of the source, as an association list. -/
def hot_spell : List (String × HotSpellParams) :=
  [("summer", ⟨"summer_days", 25, 1⟩),
   ("hot", ⟨"hot_days", 30, 1⟩),
   ("heatwave", ⟨"heatwave_spell", 27, 3⟩)]

/-- Python dictionary subscript: the value at a key, or a KeyError carrying
the missing key. -/
def dictLookup (k : String) : List (String × HotSpellParams) → Except PyError HotSpellParams
  | [] => .error (.keyError k)
  | e :: rest => if e.1 = k then .ok e.2 else dictLookup k rest

/-- A returned xarray DataArray with its long_name attribute. -/
structure XcDataArray where
  values : List (Int × ℚ)
  long_name : String
deriving DecidableEq

/-- One step of run-length spell counting: track the current run of
above-threshold days and close it when a below-threshold day arrives. -/
def spellStep (thresh : ℚ) (window : Nat) (acc : Nat × Nat) (v : ℚ) : Nat × Nat :=
  if thresh < v then (acc.1, acc.2 + 1)
  else (if window ≤ acc.2 ∧ 0 < acc.2 then acc.1 + 1 else acc.1, 0)

/-- Number of maximal runs of at least `window` consecutive days strictly
above `thresh` in a chronological value list. -/
def countSpells (thresh : ℚ) (window : Nat) (vs : List ℚ) : Nat :=
  let r := vs.foldl (spellStep thresh window) (0, 0)
  if window ≤ r.2 ∧ 0 < r.2 then r.1 + 1 else r.1

/-- Model of `xc.atmos.hot_spell_frequency(tasmax_daily, thresh, window,
freq)` from the xclim documentation: per period, the number of spells of at
least `window` consecutive days with daily maximum temperature strictly above
`thresh`.  Grouping is modelled for the annual frequency exercised here. -/
def xcHotSpellFrequency (daily : DailySeries) (thresh : ℚ) (window : Nat)
    (freq : String) : XcDataArray :=
  ⟨(yearsOf daily).map
      (fun y => (y, (countSpells thresh window
        ((daily.filter (fun e => e.1.1 == y)).map (fun e => e.2)) : ℚ))),
   "hot_spell_frequency"⟩

/-- Embedding of `hot_spell_frequency` (lines 225–277): resample tasmax to
daily maxima, look the spell type up in the `hot_spell` dictionary (a missing
key raises KeyError), compute the xclim spell frequency with the selected
threshold and window, and overwrite the long_name attribute with the selected
name. -/
def hot_spell_frequency (tasmax : Series) (hot_spell_type : String)
    (freq : String) : Except PyError XcDataArray :=
  let tasmax_daily := resampleDaily maxQ tasmax
  match dictLookup hot_spell_type hot_spell with
  | .error e => .error e
  | .ok p =>
    let da := xcHotSpellFrequency tasmax_daily p.thresh p.window freq
    .ok ⟨da.values, p.name⟩

/-! ## indicator_Birmingham_MO.py — spi -/

/-- Abstract xarray Dataset returned by `spi`: either the empty
`xr.Dataset()` or computed index data. -/
inductive Dataset
  | empty
  | data (values : List (Int × ℚ))
deriving DecidableEq

/-- The scipy FitError that the SPI computation may raise. -/
inductive FitError
  | fitError (msg : String)
deriving DecidableEq

/-- Embedding of `spi` (lines 141–170): the third-party
`standardized_precipitation_index` call either returns data or raises
FitError; its outcome is the parameter.  The source returns the computed
index on success and the empty Dataset when FitError is caught. -/
def spi (spiResult : Except FitError Dataset) : Dataset :=
  match spiResult with
  | .ok da => da
  | .error _ => Dataset.empty

/-! ## notebooks/_lib/paths.py — file-system model -/

/-- An absolute path, as its list of components. -/
abbrev RPath := List String

/-- One file-system entry: its absolute path and whether it is a directory. -/
structure FSEntry where
  path : RPath
  dir : Bool
deriving DecidableEq

/-- A file system: the list of its entries. -/
abbrev FileSys := List FSEntry

/-- Fuel-indexed worker for single-component glob matching; each recursive
call shortens the pattern or the name, so fuel above the summed lengths never
runs out. -/
def globMatchAux : Nat → List Char → List Char → Bool
  | 0, _, _ => false
  | _ + 1, [], ns => ns.isEmpty
  | fuel + 1, p :: ps, ns =>
    if p = '*' then
      match ns with
      | [] => globMatchAux fuel ps []
      | _ :: ns' => globMatchAux fuel ps ns || globMatchAux fuel (p :: ps) ns'
    else
      match ns with
      | [] => false
      | c :: ns' =>
        if p = '?' then globMatchAux fuel ps ns'
        else (p == c && globMatchAux fuel ps ns')

/-- Single-component glob matching as used by pathlib on one path name:
`*` matches any character sequence, `?` any one character, and every other
pattern character matches itself.  Character classes are not used by the
repository and are not modelled. -/
def globMatch (ps ns : List Char) : Bool :=
  globMatchAux (ps.length + ns.length + 1) ps ns

/-- Glob matching on strings. -/
def nameGlob (pattern name : String) : Bool :=
  globMatch pattern.toList name.toList

/-- Whether a path is a strict descendant of a base directory. -/
def strictUnder (base p : RPath) : Bool :=
  base.isPrefixOf p && decide (base.length < p.length)

/-- Model of `base.rglob(pattern)` for a pattern without path separators:
paths of all entries strictly below `base` whose final component matches the
pattern (pathlib yields files and directories alike). -/
def rglob (fs : FileSys) (base : RPath) (pattern : String) : List RPath :=
  (fs.filter (fun e =>
    strictUnder base e.path &&
      (match e.path.getLast? with
       | some n => nameGlob pattern n
       | none => false))).map (fun e => e.path)

/-- Model of `Path.is_dir()`: some entry at this path is a directory. -/
def isDirIn (fs : FileSys) (p : RPath) : Bool :=
  fs.any (fun e => e.path == p && e.dir)

/-- The `ignore_parts` set of `iter_indicators_dirs` (line 35). -/
def ignore_parts : List String :=
  ["outputs", ".git", ".ipynb_checkpoints", ".cache"]

/-- Rendering of a path as the string pathlib compares by. -/
def pathStr (p : RPath) : String := String.intercalate "/" p

/-- Strict code-point comparison of two characters. -/
def charLtB (a b : Char) : Bool := decide (a.val.toNat < b.val.toNat)

/-- Lexicographic code-point comparison of character lists, the order in
which Python compares strings. -/
def lexLeChars : List Char → List Char → Bool
  | [], _ => true
  | _ :: _, [] => false
  | a :: as, b :: bs => if a = b then lexLeChars as bs else charLtB a b

/-- Path order used by Python's `sorted` on Path objects: lexicographic
code-point order of the rendered path strings. -/
def pathLe (p q : RPath) : Prop :=
  lexLeChars (pathStr p).toList (pathStr q).toList = true

instance : DecidableRel pathLe :=
  fun p q =>
    inferInstanceAs (Decidable (lexLeChars (pathStr p).toList (pathStr q).toList = true))

instance : IsTotal RPath pathLe := by
  constructor
  intro p q
  show lexLeChars (pathStr p).toList (pathStr q).toList = true ∨
    lexLeChars (pathStr q).toList (pathStr p).toList = true
  generalize (pathStr p).toList = as
  generalize (pathStr q).toList = bs
  induction as generalizing bs with
  | nil => left; rfl
  | cons a as ih =>
    cases bs with
    | nil => right; rfl
    | cons b bs =>
      by_cases hab : a = b
      · subst hab
        rcases ih bs with h | h
        · left; simpa [lexLeChars] using h
        · right; simpa [lexLeChars] using h
      · have hba : ¬ b = a := fun h => hab h.symm
        have hne : a.val.toNat ≠ b.val.toNat := by
          intro hn; exact hab (Char.ext (UInt32.toNat.inj hn))
        rcases Nat.lt_or_ge a.val.toNat b.val.toNat with h | h
        · left; simp [lexLeChars, hab, charLtB, h]
        · right
          have hlt : b.val.toNat < a.val.toNat :=
            lt_of_le_of_ne h (fun hh => hne hh.symm)
          simp [lexLeChars, hba, charLtB, hlt]

instance : IsTrans RPath pathLe := by
  constructor
  intro p q r h1 h2
  show lexLeChars (pathStr p).toList (pathStr r).toList = true
  revert h1 h2
  show lexLeChars (pathStr p).toList (pathStr q).toList = true →
    lexLeChars (pathStr q).toList (pathStr r).toList = true →
    lexLeChars (pathStr p).toList (pathStr r).toList = true
  generalize (pathStr p).toList = as
  generalize (pathStr q).toList = bs
  generalize (pathStr r).toList = cs
  induction as generalizing bs cs with
  | nil => intro _ _; rfl
  | cons a as ih =>
    cases bs with
    | nil => intro h1 _; exact absurd h1 (by simp [lexLeChars])
    | cons b bs =>
      cases cs with
      | nil => intro _ h2; exact absurd h2 (by simp [lexLeChars])
      | cons c cs =>
        intro h1 h2
        by_cases hab : a = b <;> by_cases hbc : b = c
        · subst hab; subst hbc
          simp only [lexLeChars, if_pos rfl] at h1 h2 ⊢
          exact ih bs cs h1 h2
        · subst hab
          simp only [lexLeChars, if_pos rfl, if_neg hbc] at h1 h2 ⊢
          exact h2
        · subst hbc
          simp only [lexLeChars, if_pos rfl, if_neg hab] at h1 h2 ⊢
          exact h1
        · simp only [lexLeChars, if_neg hab, if_neg hbc, charLtB,
            decide_eq_true_eq] at h1 h2
          have hac : ¬ a = c := by
            intro h
            rw [h] at h1
            omega
          simp only [lexLeChars, if_neg hac, charLtB, decide_eq_true_eq]
          omega

/-- Embedding of `iter_indicators_dirs` (lines 29–45): all directories named
INDICATORS strictly below `root`, skipping non-directories and any path with
a component in `ignore_parts`, returned as `sorted(set(dirs))`. -/
def iter_indicators_dirs (fs : FileSys) (root : RPath) : List RPath :=
  let dirs := (rglob fs root "INDICATORS").filter
    (fun p => isDirIn fs p && p.all (fun c => !(ignore_parts.contains c)))
  List.insertionSort pathLe dirs.dedup

/-- Embedding of `iter_indicator_files` (lines 48–51): concatenation of the
per-directory rglob results over all INDICATORS directories. -/
def iter_indicator_files (fs : FileSys) (pattern : String) (root : RPath) : List RPath :=
  (iter_indicators_dirs fs root).flatMap (fun d => rglob fs d pattern)

/-- Embedding of `resolve_indicator_by_basename` (lines 54–68): collect the
hits, raise FileNotFoundError when there are none, FileExistsError when there
is more than one, and return the single hit otherwise. -/
def resolve_indicator_by_basename (fs : FileSys) (basename : String)
    (root : RPath) : Except PyError RPath :=
  let hits := iter_indicator_files fs basename root
  match hits with
  | [] => .error (.fileNotFoundError basename)
  | [p] => .ok p
  | _ :: _ :: _ => .error (.fileExistsError basename)

/-! ## notebooks/_lib/paths.py — output directories created at import -/

/-- The `outputs` root below the repo root (line 22). -/
def OUT_ROOT (repo_root : RPath) : RPath := repo_root ++ ["outputs"]

/-- The tables output directory (line 23). -/
def TABLE_DIR (repo_root : RPath) : RPath := OUT_ROOT repo_root ++ ["tables"]

/-- The figures output directory (line 24). -/
def FIG_DIR (repo_root : RPath) : RPath := OUT_ROOT repo_root ++ ["figures"]

/-! ## plot-map_2D.py -/

/-- One feature of the FUA shapefile, reduced to the attribute the script
consults. -/
structure FuaFeature where
  fuaName : String
deriving DecidableEq

/-- The user-editable configuration block at the top of `plot-map_2D.py`. -/
structure PlotConfig where
  pilotarea : String
  dataset_name : String
  indicator : String
  start_year : Int
  end_year : Int
  hist_start_year : Option Int
  hist_end_year : Option Int
  proj_start_year : Option Int
  proj_end_year : Option Int
  scenario : Option String
deriving DecidableEq

/-- The configuration shipped active in the script (EXAMPLE 1, lines 13–23). -/
def example1 : PlotConfig :=
  ⟨"Athens", "era5-2km", "cdd", 1989, 2018, none, none, none, none, none⟩

/-- Python str.lower() for the ASCII pilot-area names the script uses. -/
def pyLower (s : String) : String := String.mk (s.toList.map Char.toLower)

/-- Python str() of an optional int, as an f-string renders it. -/
def pyStr : Option Int → String
  | none => "None"
  | some n => toString n

/-- Python f-string rendering of an optional string. -/
def pyStrS : Option String → String
  | none => "None"
  | some s => s

/-- Embedding of `construct_filename` (lines 42–60), including the
ValueError on an unknown dataset name. -/
def construct_filename (pilotarea dataset_name indicator : String)
    (start_year end_year : Int)
    (hist_start_year hist_end_year proj_start_year proj_end_year : Option Int)
    (scenario : Option String) : Except PyError String :=
  let pilot_lower := pyLower pilotarea
  if dataset_name = "cerra" ∨ dataset_name = "eobs" then
    .ok (pilot_lower ++ "_" ++ dataset_name ++ "_" ++ indicator ++ "_eu_" ++
      toString start_year ++ "_" ++ toString end_year ++ ".nc")
  else if dataset_name = "era5-2km" then
    .ok (pilot_lower ++ "_" ++ dataset_name ++ "_" ++ indicator ++ "_" ++
      toString start_year ++ toString end_year ++ ".nc")
  else if dataset_name = "eu-cordex-11" then
    .ok (pilot_lower ++ "_" ++ dataset_name ++ "_" ++ indicator ++ "_" ++
      pyStr hist_start_year ++ "-" ++ pyStr hist_end_year ++ "_" ++
      pyStr proj_start_year ++ "-" ++ pyStr proj_end_year ++ "_" ++
      pyStrS scenario ++ ".nc")
  else .error (.valueError dataset_name)

/-- Embedding of `get_title_and_savefig` (lines 62–74): the plot title and
the PNG file name. -/
def get_title_and_savefig (pilotarea dataset_name var_name : String)
    (start_year end_year : Int)
    (hist_start_year hist_end_year proj_start_year proj_end_year : Option Int)
    (scenario : Option String) : String × String :=
  if dataset_name = "eu-cordex-11" then
    ("Average Map of " ++ var_name ++ " from " ++ pyStr hist_start_year ++ "-" ++
        pyStr hist_end_year ++ " & " ++ pyStr proj_start_year ++ "-" ++
        pyStr proj_end_year ++ "\nover " ++ pilotarea ++ " in " ++ dataset_name ++
        " (" ++ pyStrS scenario ++ ")",
     pilotarea ++ "_" ++ var_name ++ "_" ++ dataset_name ++ "_" ++
        pyStr hist_start_year ++ "-" ++ pyStr hist_end_year ++ "_" ++
        pyStr proj_start_year ++ "-" ++ pyStr proj_end_year ++ "_" ++
        pyStrS scenario ++ ".png")
  else
    ("Average Map of " ++ var_name ++ " from " ++ toString start_year ++ " to " ++
        toString end_year ++ "\nover " ++ pilotarea ++ " in " ++ dataset_name,
     pilotarea ++ "_" ++ var_name ++ "_" ++ dataset_name ++ "_" ++
        toString start_year ++ "-" ++ toString end_year ++ ".png")

/-- The shapefile path constant of line 82. -/
def FUA_SHP : String := "/work/cmcc/gg21021/shapefile/UI-boundaries-FUA/FUA_Boundaries.shp"

/-- The variable name hard-coded at line 91. -/
def var_name : String := "CDD"

/-- The FUA feature selection of line 129: the script filters on the
hard-coded name string "Athina" and does not consult the configured
pilot area. -/
def fua_select (cfg : PlotConfig) (fua_gdf : List FuaFeature) : List FuaFeature :=
  fua_gdf.filter (fun f => f.fuaName == "Athina")

/-- Embedding of the try/except block at lines 127–135: on a successful
shapefile read the selection and its non-emptiness flag are kept; on any
exception the script substitutes `fua_shape = None` and `fua_found = False`
and continues. -/
def fua_load (cfg : PlotConfig) (readResult : Except String (List FuaFeature)) :
    Option (List FuaFeature) × Bool :=
  match readResult with
  | .ok fua_gdf =>
    let fua_shape := fua_select cfg fua_gdf
    (some fua_shape, !fua_shape.isEmpty)
  | .error _ => (none, false)

/-- Effects the plotting script performs, in program order: file-system reads,
writes and directory creations, plus the named plotting steps. -/
inductive Effect
  | readEff (path : String)
  | writeEff (path : String)
  | mkdirEff (path : String)
  | gridlines
  | pcolormesh
  | fuaBoundary
  | colorbar
  | setExtent
  | titleEff
  | showEff
deriving DecidableEq

/-- The two `mkdir(parents=True, exist_ok=True)` calls run when
`notebooks/_lib/paths.py` is imported (lines 25–26). -/
def paths_import_effects (repo_root : RPath) : List Effect :=
  [.mkdirEff (pathStr (TABLE_DIR repo_root)), .mkdirEff (pathStr (FIG_DIR repo_root))]

/-- Embedding of a run of `plot-map_2D.py` as its effect trace: build the
input file path, read the dataset, attempt the shapefile read (whose outcome
is the parameter), draw the map, overlay the FUA boundary only when
`fua_found`, and save the single PNG named by `get_title_and_savefig`. -/
def plot_map_run (cfg : PlotConfig) (fuaRead : Except String (List FuaFeature)) :
    Except PyError (List Effect) :=
  match construct_filename cfg.pilotarea cfg.dataset_name cfg.indicator
      cfg.start_year cfg.end_year cfg.hist_start_year cfg.hist_end_year
      cfg.proj_start_year cfg.proj_end_year cfg.scenario with
  | .error e => .error e
  | .ok filename =>
    let file := "/work/cmcc/gf27821/CARMINE/CARMINE-T2.4/" ++ cfg.pilotarea ++
      "/INDICATORS" ++ "/" ++ filename
    let fr := fua_load cfg fuaRead
    let ts := get_title_and_savefig cfg.pilotarea cfg.dataset_name var_name
      cfg.start_year cfg.end_year cfg.hist_start_year cfg.hist_end_year
      cfg.proj_start_year cfg.proj_end_year cfg.scenario
    .ok ([.readEff file, .readEff FUA_SHP, .gridlines, .pcolormesh] ++
      (if fr.2 then [.fuaBoundary] else []) ++
      [.colorbar, .setExtent, .titleEff, .writeEff ts.2, .showEff])

/-- Whether an effect writes to the file system. -/
def isWriteEffect : Effect → Bool
  | .writeEff _ => true
  | .mkdirEff _ => true
  | _ => false

/-- The file-system writes of a trace. -/
def writesOf (t : List Effect) : List Effect := t.filter isWriteEffect

/-- Whether an effect reads from the file system. -/
def isReadEffect : Effect → Bool
  | .readEff _ => true
  | _ => false

/-! ## Claim-side definitions -/

/-- Daily degree-day rule as the claim words it, for comparison with the
source's `bakerD`. -/
def bakerD_claim (tbase tmax tmin : ℚ) : ℚ :=
  if tmax ≤ tbase then 0
  else if tmin ≥ tbase then (tmax + tmin) / 2 - tbase
  else if (tmax + tmin) / 2 > tbase then (tmax - tbase) / 2 + (tbase - tmin) / 4
  else (tmax - tbase) / 4

/-- Growing-degree-day pipeline as the claim words it: daily resampling, the
claim's piecewise rule, and the per-year sum. -/
def gdd_baker_claim (tasmax tasmin : Series) (tbase : ℚ) : List (Int × ℚ) :=
  resampleYearlySum
    ((alignDays (resampleDaily maxQ tasmax) (resampleDaily minQ tasmin)).map
      (fun e => (e.1, bakerD_claim tbase e.2.1 e.2.2)))

/-- Predicate of claim C4 on one path: a directory named INDICATORS strictly
under the root whose path has no component in the excluded set. -/
def claimIndicatorsDir (fs : FileSys) (root : RPath) (p : RPath) : Prop :=
  (∃ e ∈ fs, e.path = p ∧ e.dir = true) ∧
  root <+: p ∧ root ≠ p ∧
  p.getLast? = some "INDICATORS" ∧
  ∀ c ∈ p, c ∉ ignore_parts

/-! ## Concrete instances used by witnesses and counterexamples -/

/-- One-reading tasmax series: 15 degC on day 1 of year 2000. -/
def exTasmax : Series := [(⟨2000, 1, 0⟩, 15)]

/-- One-reading tasmin series: 5 degC on day 1 of year 2000. -/
def exTasmin : Series := [(⟨2000, 1, 0⟩, 5)]

/-- Two sub-daily tasmin readings of the same day: 19 and 21 degC.  The
daily maximum (21) is above the 20 degC tropical-night threshold while the
daily minimum (19) is not. -/
def exTasminSubDaily : Series := [(⟨2000, 1, 0⟩, 19), (⟨2000, 1, 1⟩, 21)]

/-- Root of the example file systems. -/
def exRoot : RPath := ["data"]

/-- A file system with one INDICATORS directory nested below another and a
single file `f.nc` below the inner one. -/
def exNestedFS : FileSys :=
  [⟨["data"], true⟩,
   ⟨["data", "INDICATORS"], true⟩,
   ⟨["data", "INDICATORS", "sub"], true⟩,
   ⟨["data", "INDICATORS", "sub", "INDICATORS"], true⟩,
   ⟨["data", "INDICATORS", "sub", "INDICATORS", "f.nc"], false⟩]

/-- A small flat file system with one INDICATORS directory and two files. -/
def exFlatFS : FileSys :=
  [⟨["data"], true⟩,
   ⟨["data", "INDICATORS"], true⟩,
   ⟨["data", "INDICATORS", "a.nc"], false⟩,
   ⟨["data", "outputs", "INDICATORS"], true⟩]

/-- A FUA table holding both a Birmingham and an Athina feature. -/
def exGdf : List FuaFeature := [⟨"Birmingham"⟩, ⟨"Athina"⟩]

/-- The script configuration with the pilot area edited to Birmingham and
everything else as in EXAMPLE 1. -/
def birminghamCfg : PlotConfig :=
  ⟨"Birmingham", "era5-2km", "cdd", 1989, 2018, none, none, none, none, none⟩

/-- The effect trace of a run of the shipped configuration in which the
shapefile read fails. -/
def exTraceNoFua : List Effect :=
  [.readEff "/work/cmcc/gf27821/CARMINE/CARMINE-T2.4/Athens/INDICATORS/athens_era5-2km_cdd_19892018.nc",
   .readEff FUA_SHP, .gridlines, .pcolormesh, .colorbar, .setExtent, .titleEff,
   .writeEff "Athens_CDD_era5-2km_1989-2018.png", .showEff]

/-! ## Helper lemmas -/

/-- The source's nested conditions agree with the claim's piecewise rule. -/
theorem bakerD_eq_claim (tbase tmax tmin : ℚ) :
    bakerD tbase tmax tmin = bakerD_claim tbase tmax tmin := by
  unfold bakerD bakerD_claim
  simp only [ge_iff_le, gt_iff_lt]
  split_ifs <;> ring

/-- Every per-year sum of a pointwise nonnegative daily series is
nonnegative. -/
theorem resampleYearlySum_nonneg (s : DailySeries) (hs : ∀ e ∈ s, 0 ≤ e.2) :
    ∀ y v, (y, v) ∈ resampleYearlySum s → 0 ≤ v := by
  intro y v hv
  unfold resampleYearlySum at hv
  simp only [List.mem_map] at hv
  obtain ⟨y', _, heq⟩ := hv
  cases heq
  apply List.sum_nonneg
  intro x hx
  simp only [List.mem_map, List.mem_filter] at hx
  obtain ⟨e, ⟨he, _⟩, rfl⟩ := hx
  exact hs e he

/-- A wildcard-free glob worker, given enough fuel, matches exactly its own
pattern. -/
theorem globMatchAux_literal (ps : List Char) :
    (∀ c ∈ ps, c ≠ '*' ∧ c ≠ '?') →
    ∀ fuel ns, ps.length < fuel → (globMatchAux fuel ps ns = true ↔ ps = ns) := by
  induction ps with
  | nil =>
    intro _ fuel ns hf
    cases fuel with
    | zero => omega
    | succ f => cases ns <;> simp [globMatchAux]
  | cons p ps ih =>
    intro hp fuel ns hf
    have hp1 := hp p (List.mem_cons_self p ps)
    have hrest : ∀ c ∈ ps, c ≠ '*' ∧ c ≠ '?' :=
      fun c hc => hp c (List.mem_cons_of_mem p hc)
    cases fuel with
    | zero => omega
    | succ f =>
      cases ns with
      | nil => simp [globMatchAux, hp1.1]
      | cons c ns' =>
        have hlt : ps.length < f := by
          simp only [List.length_cons] at hf
          omega
        simp [globMatchAux, hp1.1, hp1.2, ih hrest f ns' hlt, beq_iff_eq]

/-- A glob pattern without wildcard characters matches exactly itself. -/
theorem globMatch_literal (ps : List Char)
    (hp : ∀ c ∈ ps, c ≠ '*' ∧ c ≠ '?') :
    ∀ ns, globMatch ps ns = true ↔ ps = ns := by
  intro ns
  exact globMatchAux_literal ps hp _ ns (by omega)

/-- Globbing for the literal name INDICATORS is name equality. -/
theorem nameGlob_INDICATORS (n : String) :
    nameGlob "INDICATORS" n = true ↔ n = "INDICATORS" := by
  unfold nameGlob
  rw [globMatch_literal _ (by decide) n.toList]
  constructor
  · intro h
    have := congrArg (fun l => String.mk l) h
    simpa using this.symm
  · intro h; subst h; rfl

/-- The Boolean strict-descendant test matches its propositional reading. -/
theorem strictUnder_iff (base p : RPath) :
    strictUnder base p = true ↔ base <+: p ∧ base ≠ p := by
  unfold strictUnder
  simp only [Bool.and_eq_true, decide_eq_true_eq, List.isPrefixOf_iff_prefix]
  constructor
  · rintro ⟨hpre, hlen⟩
    exact ⟨hpre, fun h => by simp [h] at hlen⟩
  · rintro ⟨hpre, hne⟩
    refine ⟨hpre, lt_of_le_of_ne (hpre.sublist.length_le) ?_⟩
    intro hlen
    exact hne (hpre.sublist.eq_of_length hlen)

/-- The Boolean directory test matches its propositional reading. -/
theorem isDirIn_iff (fs : FileSys) (p : RPath) :
    isDirIn fs p = true ↔ ∃ e ∈ fs, e.path = p ∧ e.dir = true := by
  unfold isDirIn
  simp [List.any_eq_true, beq_iff_eq]

/-- The Boolean excluded-component test matches its propositional reading. -/
theorem noIgnored_iff (p : RPath) :
    (p.all (fun c => !(ignore_parts.contains c)) = true) ↔ ∀ c ∈ p, c ∉ ignore_parts := by
  simp [List.all_eq_true]

/-- Every branch of the daily degree-day rule yields a nonnegative value. -/
theorem bakerD_nonneg (tbase tmax tmin : ℚ) : 0 ≤ bakerD tbase tmax tmin := by
  unfold bakerD
  split_ifs with h1 h2 h3
  · exact le_refl 0
  · linarith
  · linarith
  · linarith

/-! ## Claim theorems -/

/-- C1: for every daily tmax/tmin pair and base temperature, gdd_baker
computes the daily degree-day value D by the claim's piecewise rule with the
branches tested in the stated order, and returns the per-year ('YS') sums of
D for every value of the freq argument. -/
theorem gdd_baker_matches_spec (tasmax tasmin : Series) (tbase : ℚ) (freq : String) :
    (∀ tmax tmin : ℚ, bakerD tbase tmax tmin = bakerD_claim tbase tmax tmin) ∧
    gdd_baker tasmax tasmin tbase freq = gdd_baker_claim tasmax tasmin tbase ∧
    (∀ freq' : String,
      gdd_baker tasmax tasmin tbase freq = gdd_baker tasmax tasmin tbase freq') := by
  refine ⟨fun tmax tmin => bakerD_eq_claim tbase tmax tmin, ?_, fun _ => rfl⟩
  unfold gdd_baker gdd_baker_claim
  simp [bakerD_eq_claim]

/-- Witness for C1: the source pipeline and the claim's pipeline agree on a
concrete one-day series for every frequency string. -/
theorem gdd_baker_matches_spec_witness :
    gdd_baker exTasmax exTasmin 10 "MS" = gdd_baker_claim exTasmax exTasmin 10 :=
  (gdd_baker_matches_spec exTasmax exTasmin 10 "MS").2.1

/-- C8: the daily degree-day value is nonnegative in every branch, so every
per-year sum returned by gdd_baker is nonnegative. -/
theorem gdd_baker_sums_nonneg (tbase tmax tmin : ℚ) (tasmax tasmin : Series)
    (freq : String) :
    0 ≤ bakerD tbase tmax tmin ∧
    ∀ y v, (y, v) ∈ gdd_baker tasmax tasmin tbase freq → 0 ≤ v := by
  refine ⟨bakerD_nonneg tbase tmax tmin, ?_⟩
  intro y v hv
  have hform : gdd_baker tasmax tasmin tbase freq =
      resampleYearlySum
        ((alignDays (resampleDaily maxQ tasmax) (resampleDaily minQ tasmin)).map
          (fun e => (e.1, bakerD tbase e.2.1 e.2.2))) := rfl
  rw [hform] at hv
  refine resampleYearlySum_nonneg _ ?_ y v hv
  intro e he
  simp only [List.mem_map] at he
  obtain ⟨x, _, rfl⟩ := he
  exact bakerD_nonneg tbase x.2.1 x.2.2

/-- Witness for C8 at a concrete series whose single yearly sum is 5/4. -/
theorem gdd_baker_sums_nonneg_witness : 0 ≤ bakerD 10 15 5 ∧ (0:ℚ) ≤ 5/4 := by
  have hmem : ((2000:Int), (5/4:ℚ)) ∈ gdd_baker exTasmax exTasmin 10 "YS" := by
    norm_num [gdd_baker, resampleDaily, valuesAt, foldAgg, dayOf, alignDays, findVal,
      bakerD, resampleYearlySum, yearsOf, maxQ, minQ, exTasmax, exTasmin,
      List.filter, List.filterMap, Option.map, beq_self_eq_true, beq_iff_eq]
  exact ⟨(gdd_baker_sums_nonneg 10 15 5 exTasmax exTasmin "YS").1,
    (gdd_baker_sums_nonneg 10 15 5 exTasmax exTasmin "YS").2 2000 (5/4) hmem⟩

/-- C6: tropical_nights aggregates the supplied tasmin series to daily
resolution with the daily maximum before counting, unlike gdd_baker, which
resamples tasmin with the daily minimum; on a concrete day with readings 19
and 21 degC the max-resample counts one tropical night while a min-resample
would count none. -/
theorem tropical_nights_uses_daily_max (tasmin tasmax : Series) (freq : String)
    (tbase : ℚ) :
    tropical_nights tasmin freq = xcTropicalNights (resampleDaily maxQ tasmin) 20 freq ∧
    gdd_baker tasmax tasmin tbase freq =
      resampleYearlySum
        ((alignDays (resampleDaily maxQ tasmax) (resampleDaily minQ tasmin)).map
          (fun e => (e.1, bakerD tbase e.2.1 e.2.2))) ∧
    tropical_nights exTasminSubDaily "YS" = [(2000, 1)] ∧
    tropical_nights_min_resample exTasminSubDaily "YS" = [(2000, 0)] := by
  refine ⟨rfl, rfl, ?_, ?_⟩ <;>
    norm_num [tropical_nights, tropical_nights_min_resample, xcTropicalNights,
      resampleDaily, valuesAt, foldAgg, dayOf, yearsOf, maxQ, minQ, exTasminSubDaily,
      List.filter, List.filterMap, Option.map, beq_self_eq_true, beq_iff_eq,
      max_def, min_def]

/-- Witness for C6: the two resampling choices disagree on the concrete
sub-daily series. -/
theorem tropical_nights_uses_daily_max_witness :
    tropical_nights exTasminSubDaily "YS" = [(2000, 1)] ∧
    tropical_nights_min_resample exTasminSubDaily "YS" = [(2000, 0)] :=
  ⟨(tropical_nights_uses_daily_max exTasminSubDaily [] "YS" 10).2.2.1,
   (tropical_nights_uses_daily_max exTasminSubDaily [] "YS" 10).2.2.2⟩

/-- C9: hot_spell_frequency accepts exactly the spell types summer, hot and
heatwave, computing the xclim spell frequency with threshold/window pairs
25 degC/1, 30 degC/1 and 27 degC/3 and long_name summer_days, hot_days and
heatwave_spell respectively, and for every other spell type returns a
KeyError regardless of the temperature input. -/
theorem hot_spell_frequency_cases (tasmax : Series) (freq : String) :
    hot_spell_frequency tasmax "summer" freq =
      .ok ⟨(xcHotSpellFrequency (resampleDaily maxQ tasmax) 25 1 freq).values,
        "summer_days"⟩ ∧
    hot_spell_frequency tasmax "hot" freq =
      .ok ⟨(xcHotSpellFrequency (resampleDaily maxQ tasmax) 30 1 freq).values,
        "hot_days"⟩ ∧
    hot_spell_frequency tasmax "heatwave" freq =
      .ok ⟨(xcHotSpellFrequency (resampleDaily maxQ tasmax) 27 3 freq).values,
        "heatwave_spell"⟩ ∧
    ∀ t, t ∉ ["summer", "hot", "heatwave"] →
      ∀ tasmax' : Series, hot_spell_frequency tasmax' t freq = .error (.keyError t) := by
  refine ⟨rfl, rfl, rfl, ?_⟩
  intro t ht tasmax'
  simp only [List.mem_cons, List.not_mem_nil, or_false, not_or] at ht
  obtain ⟨h1, h2, h3⟩ := ht
  have h1' : "summer" ≠ t := fun h => h1 h.symm
  have h2' : "hot" ≠ t := fun h => h2 h.symm
  have h3' : "heatwave" ≠ t := fun h => h3 h.symm
  simp [hot_spell_frequency, hot_spell, dictLookup, h1', h2', h3']

/-- Witness for C9: an unrecognised spell type yields the KeyError. -/
theorem hot_spell_frequency_cases_witness :
    hot_spell_frequency [] "tropical" "YS" = .error (.keyError "tropical") :=
  (hot_spell_frequency_cases [] "YS").2.2.2 "tropical" (by decide) []

/-- Membership in an rglob result, unfolded to its propositional content. -/
theorem rglob_mem (fs : FileSys) (base : RPath) (pattern : String) (p : RPath) :
    p ∈ rglob fs base pattern ↔
      (∃ e ∈ fs, e.path = p) ∧ strictUnder base p = true ∧
      (∃ n, p.getLast? = some n ∧ nameGlob pattern n = true) := by
  unfold rglob
  simp only [List.mem_map, List.mem_filter]
  constructor
  · rintro ⟨e, ⟨he, hc⟩, rfl⟩
    simp only [Bool.and_eq_true] at hc
    obtain ⟨hs, hm⟩ := hc
    refine ⟨⟨e, he, rfl⟩, hs, ?_⟩
    cases hl : e.path.getLast? with
    | none => rw [hl] at hm; exact absurd hm (by simp)
    | some n => rw [hl] at hm; exact ⟨n, rfl, hm⟩
  · rintro ⟨⟨e, he, rfl⟩, hs, n, hl, hm⟩
    refine ⟨e, ⟨he, ?_⟩, rfl⟩
    simp only [Bool.and_eq_true]
    refine ⟨hs, ?_⟩
    rw [hl]
    exact hm

/-- C4: iter_indicators_dirs returns exactly the directories named
INDICATORS below the root whose paths avoid the excluded components, with no
duplicates and sorted in ascending path order. -/
theorem iter_indicators_dirs_characterization (fs : FileSys) (root : RPath) :
    (∀ p, p ∈ iter_indicators_dirs fs root ↔ claimIndicatorsDir fs root p) ∧
    (iter_indicators_dirs fs root).Nodup ∧
    (iter_indicators_dirs fs root).Sorted pathLe := by
  refine ⟨?_, ?_, ?_⟩
  · intro p
    unfold iter_indicators_dirs
    rw [List.mem_insertionSort, List.mem_dedup, List.mem_filter]
    rw [rglob_mem]
    unfold claimIndicatorsDir
    rw [Bool.and_eq_true, isDirIn_iff, noIgnored_iff, strictUnder_iff]
    constructor
    · rintro ⟨⟨_, ⟨hpre, hne⟩, n, hl, hm⟩, hex, hall⟩
      rw [nameGlob_INDICATORS] at hm
      subst hm
      exact ⟨hex, hpre, hne, hl, hall⟩
    · rintro ⟨⟨e, he, hp, hd⟩, hpre, hne, hl, hall⟩
      refine ⟨⟨⟨e, he, hp⟩, ⟨hpre, hne⟩, "INDICATORS", hl, ?_⟩, ⟨e, he, hp, hd⟩, hall⟩
      rw [nameGlob_INDICATORS]
  · exact ((List.perm_insertionSort pathLe _).nodup_iff).mpr (List.nodup_dedup _)
  · exact List.sorted_insertionSort pathLe _

/-- Witness for C4: the INDICATORS directory of the flat example file system
satisfies the claim predicate, obtained from the characterization at the
decided membership. -/
theorem iter_indicators_dirs_characterization_witness :
    claimIndicatorsDir exFlatFS exRoot ["data", "INDICATORS"] :=
  ((iter_indicators_dirs_characterization exFlatFS exRoot).1
    ["data", "INDICATORS"]).mp (by decide)

/-- C2 (amended): resolution is a trichotomy on the concatenated
per-directory hit enumeration: the single hit is returned when there is
exactly one, FileNotFoundError is raised exactly when there are none, and
FileExistsError exactly when there are two or more. -/
theorem resolve_indicator_trichotomy (fs : FileSys) (basename : String) (root : RPath) :
    (∀ p, resolve_indicator_by_basename fs basename root = .ok p ↔
      iter_indicator_files fs basename root = [p]) ∧
    (resolve_indicator_by_basename fs basename root = .error (.fileNotFoundError basename) ↔
      iter_indicator_files fs basename root = []) ∧
    (resolve_indicator_by_basename fs basename root = .error (.fileExistsError basename) ↔
      2 ≤ (iter_indicator_files fs basename root).length) := by
  unfold resolve_indicator_by_basename
  cases h : iter_indicator_files fs basename root with
  | nil => simp
  | cons a t =>
    cases t with
    | nil => simp
    | cons b t' =>
      simp only [List.length_cons]
      refine ⟨by simp, by simp, by simp⟩

/-- Witness for C2: on the flat example file system the unique hit is
returned, as the trichotomy requires. -/
theorem resolve_indicator_trichotomy_witness :
    resolve_indicator_by_basename exFlatFS "a.nc" exRoot =
      .ok ["data", "INDICATORS", "a.nc"] :=
  ((resolve_indicator_trichotomy exFlatFS "a.nc" exRoot).1
    ["data", "INDICATORS", "a.nc"]).mpr (by decide)

/-- C2 counterexample: in exNestedFS exactly one file named f.nc exists (and
it lies under non-excluded INDICATORS directories), yet, because that file
sits below two nested INDICATORS directories, the per-directory enumeration
lists it twice and resolution raises FileExistsError instead of returning the
unique match, refuting the claim as stated. -/
theorem resolve_unique_file_counterexample :
    (exNestedFS.filter (fun e => !e.dir && (e.path.getLast? == some "f.nc"))).length = 1 ∧
    iter_indicator_files exNestedFS "f.nc" exRoot =
      [["data", "INDICATORS", "sub", "INDICATORS", "f.nc"],
       ["data", "INDICATORS", "sub", "INDICATORS", "f.nc"]] ∧
    resolve_indicator_by_basename exNestedFS "f.nc" exRoot =
      .error (.fileExistsError "f.nc") :=
  ⟨rfl, rfl, rfl⟩

/-- C3 counterexample: the FUA shapefile read of plot-map_2D.py (lines
127–135) also catches an exception and substitutes a fallback result — the
script continues with no shape and fua_found = False instead of propagating
the error — so the spi catch is not the repository's only
catch-and-substitute case. -/
theorem fua_catch_fallback_counterexample :
    fua_load example1 (Except.error "DriverError while reading FUA_Boundaries.shp") =
      (none, false) := rfl

/-- C3 (amended): the repository contains exactly two failure-recovery
cases: spi returns the empty Dataset when the underlying SPI computation
raises FitError and the computed index otherwise, and the plotting script's
FUA shapefile read substitutes no shape and fua_found = False on any
exception while keeping the selection and its non-emptiness flag on
success. -/
theorem spi_and_fua_recovery :
    (∀ e, spi (.error e) = Dataset.empty) ∧
    (∀ da, spi (.ok da) = da) ∧
    (∀ cfg msg, fua_load cfg (.error msg) = (none, false)) ∧
    (∀ cfg gdf, fua_load cfg (.ok gdf) =
      (some (fua_select cfg gdf), !(fua_select cfg gdf).isEmpty)) :=
  ⟨fun _ => rfl, fun _ => rfl, fun _ _ => rfl, fun _ _ => rfl⟩

/-- Witness for C3 (amended): a concrete FitError yields the empty
Dataset. -/
theorem spi_and_fua_recovery_witness :
    spi (.error (.fitError "SPI distribution fit failed")) = Dataset.empty :=
  spi_and_fua_recovery.1 (.fitError "SPI distribution fit failed")

/-- C5 counterexample: with the pilot area configured to Birmingham and a
shapefile table containing both a Birmingham and an Athina feature, the
script still selects the Athina feature: the selection uses the hard-coded
string "Athina" of line 129, not a name corresponding to the configured
pilot area. -/
theorem fua_selection_counterexample :
    fua_select birminghamCfg exGdf = [⟨"Athina"⟩] ∧
    fua_load birminghamCfg (.ok exGdf) = (some [⟨"Athina"⟩], true) :=
  ⟨rfl, rfl⟩

/-- C5 (amended): the feature selected for the boundary overlay is always
the one whose FUA_NAME equals the hard-coded string "Athina", independently
of the configured pilot area — so it corresponds to the configured area only
when that area is Athens; whenever the table holds an Athina feature the
selection is nonempty. -/
theorem fua_selection_hardcoded_athina (cfg cfg' : PlotConfig) (gdf : List FuaFeature) :
    (∀ f ∈ fua_select cfg gdf, f.fuaName = "Athina") ∧
    fua_select cfg gdf = fua_select cfg' gdf ∧
    ((∃ f ∈ gdf, f.fuaName = "Athina") → fua_select cfg gdf ≠ []) := by
  refine ⟨?_, rfl, ?_⟩
  · intro f hf
    unfold fua_select at hf
    rw [List.mem_filter] at hf
    simpa using hf.2
  · rintro ⟨f, hf, hn⟩
    have hmem : f ∈ fua_select cfg gdf := by
      unfold fua_select
      rw [List.mem_filter]
      exact ⟨hf, by simp [hn]⟩
    exact List.ne_nil_of_mem hmem

/-- Witness for C5 (amended): the Athina feature keeps the selection
nonempty in the shipped configuration. -/
theorem fua_selection_hardcoded_athina_witness :
    fua_select example1 exGdf ≠ [] :=
  (fua_selection_hardcoded_athina example1 birminghamCfg exGdf).2.2
    ⟨⟨"Athina"⟩, by decide, rfl⟩

/-- C7: when the shapefile read raises, the run still executes and saves the
map: the trace is exactly the full trace without the FUA boundary overlay,
fua_found is false, and the PNG write effect is present. -/
theorem plot_run_on_fua_error (msg : String) (gdf : List FuaFeature) :
    plot_map_run example1 (.error msg) = .ok exTraceNoFua ∧
    (fua_load example1 (.error msg)).2 = false ∧
    plot_map_run example1 (.error msg) =
      Except.map (fun t => t.filter (fun s => s != Effect.fuaBoundary))
        (plot_map_run example1 (.ok gdf)) ∧
    Effect.writeEff "Athens_CDD_era5-2km_1989-2018.png" ∈ exTraceNoFua := by
  refine ⟨rfl, rfl, ?_, by decide⟩
  have hrun : plot_map_run example1 (.ok gdf) = .ok
      ([.readEff "/work/cmcc/gf27821/CARMINE/CARMINE-T2.4/Athens/INDICATORS/athens_era5-2km_cdd_19892018.nc",
        .readEff FUA_SHP, .gridlines, .pcolormesh] ++
       (if !(fua_select example1 gdf).isEmpty then [.fuaBoundary] else []) ++
       [.colorbar, .setExtent, .titleEff,
        .writeEff "Athens_CDD_era5-2km_1989-2018.png", .showEff]) := rfl
  rw [hrun, show plot_map_run example1 (.error msg) = .ok exTraceNoFua from rfl]
  cases hsel : (fua_select example1 gdf).isEmpty <;> rfl

/-- Witness for C7: a concrete failed shapefile read still yields the full
no-overlay trace, with the PNG write present. -/
theorem plot_run_on_fua_error_witness :
    plot_map_run example1 (.error "shapefile missing") = .ok exTraceNoFua :=
  (plot_run_on_fua_error "shapefile missing" exGdf).1

/-- C10: a run of the plotting pipeline writes only output artifacts: the
trace's only file-system write is the single PNG named by
get_title_and_savefig, the paths helper module's import writes are exactly
the outputs/tables and outputs/figures directory creations, no written path
is ever read (so no input dataset or shapefile is modified), and the plotting
run itself creates no directory. -/
theorem plot_run_writes_only_outputs (fuaRead : Except String (List FuaFeature))
    (repo_root : RPath) (trace : List Effect)
    (h : plot_map_run example1 fuaRead = .ok trace) :
    writesOf trace =
      [Effect.writeEff (get_title_and_savefig "Athens" "era5-2km" var_name 1989 2018
        none none none none none).2] ∧
    writesOf (paths_import_effects repo_root) =
      [Effect.mkdirEff (pathStr (TABLE_DIR repo_root)),
       Effect.mkdirEff (pathStr (FIG_DIR repo_root))] ∧
    (∀ p, Effect.writeEff p ∈ trace → Effect.readEff p ∉ trace) ∧
    (∀ p, Effect.mkdirEff p ∉ trace) := by
  have htr : trace = exTraceNoFua ∨
      trace =
        [.readEff "/work/cmcc/gf27821/CARMINE/CARMINE-T2.4/Athens/INDICATORS/athens_era5-2km_cdd_19892018.nc",
         .readEff FUA_SHP, .gridlines, .pcolormesh, .fuaBoundary,
         .colorbar, .setExtent, .titleEff,
         .writeEff "Athens_CDD_era5-2km_1989-2018.png", .showEff] := by
    cases fuaRead with
    | error msg =>
      have h0 : plot_map_run example1 (.error msg) = .ok exTraceNoFua := rfl
      rw [h0] at h
      injection h with h1
      exact Or.inl h1.symm
    | ok gdf =>
      have h0 : plot_map_run example1 (.ok gdf) = .ok
          ([.readEff "/work/cmcc/gf27821/CARMINE/CARMINE-T2.4/Athens/INDICATORS/athens_era5-2km_cdd_19892018.nc",
            .readEff FUA_SHP, .gridlines, .pcolormesh] ++
           (if !(fua_select example1 gdf).isEmpty then [.fuaBoundary] else []) ++
           [.colorbar, .setExtent, .titleEff,
            .writeEff "Athens_CDD_era5-2km_1989-2018.png", .showEff]) := rfl
      rw [h0] at h
      injection h with h1
      cases hsel : (fua_select example1 gdf).isEmpty <;> rw [hsel] at h1
      · exact Or.inr h1.symm
      · exact Or.inl h1.symm
  rcases htr with rfl | rfl <;> refine ⟨rfl, rfl, ?_, ?_⟩
  · intro p hw hr
    simp only [exTraceNoFua, List.mem_cons, List.not_mem_nil, or_false] at hw
    rcases hw with h | h | h | h | h | h | h | h | h <;> cases h
    exact absurd hr (by decide)
  · intro p hm
    simp only [exTraceNoFua, List.mem_cons, List.not_mem_nil, or_false] at hm
    rcases hm with h | h | h | h | h | h | h | h | h <;> cases h
  · intro p hw hr
    simp only [List.mem_cons, List.not_mem_nil, or_false] at hw
    rcases hw with h | h | h | h | h | h | h | h | h | h <;> cases h
    exact absurd hr (by decide)
  · intro p hm
    simp only [List.mem_cons, List.not_mem_nil, or_false] at hm
    rcases hm with h | h | h | h | h | h | h | h | h | h <;> cases h

/-- Witness for C10: the no-overlay run's only write is the PNG. -/
theorem plot_run_writes_only_outputs_witness :
    writesOf exTraceNoFua = [Effect.writeEff "Athens_CDD_era5-2km_1989-2018.png"] :=
  (plot_run_writes_only_outputs (.error "io failure") ["repo"] exTraceNoFua rfl).1
